import Mathlib

/-!
Verification of the US-county-boundaries tornado dashboard pipeline (`app.py`).

The file gives a shallow embedding of the data pipeline of `app.py`:
cell parsing and table cleaning (the `df_tornado` processing block),
the boundary flattening block producing `combined_lats` / `combined_lons`,
the figure builder `create_figure`, and the guarded Google-Drive download
(`download_large_file_from_gdrive` behind the `os.path.exists` check).

Pandas cells are modelled as `Option String` (with `none` playing the role
of NaN / a missing value), numeric values as `Rat`, the file system and the
network as an explicit `World` state threaded through the fetcher.
-/

namespace TornadoApp

/-! ### Numeric cell parsing

Models `pd.to_numeric(col, errors="coerce")`: a decimal-literal parser
(optional sign, integer part, optional fractional part); anything else
coerces to a missing value (`none`). -/

/-- Numeric value of a list of decimal digit characters. -/
def digitsVal (ds : List Char) : Nat :=
  ds.foldl (fun a c => a * 10 + (c.toNat - 48)) 0

/-- Whether every character of the list is a decimal digit. -/
def allDigits (ds : List Char) : Bool :=
  ds.all (fun c => c.isDigit)

/-- Parse an unsigned decimal literal (`"12"`, `"12.5"`, `".5"`) as a rational. -/
def parseUnsigned (cs : List Char) : Option Rat :=
  match cs.splitOn '.' with
  | [ip] =>
      if !ip.isEmpty && allDigits ip then some (digitsVal ip) else none
  | [ip, fp] =>
      if (!ip.isEmpty || !fp.isEmpty) && allDigits ip && allDigits fp then
        some ((digitsVal ip : Rat) + (digitsVal fp : Rat) / (10 : Rat) ^ fp.length)
      else none
  | _ => none

/-- Model of `pd.to_numeric(_, errors="coerce")` on one cell value:
a signed decimal literal parses to its rational value, anything else to `none`. -/
def parseNumeric (s : String) : Option Rat :=
  match s.toList with
  | [] => none
  | '-' :: rest => (parseUnsigned rest).map (fun q => -q)
  | '+' :: rest => parseUnsigned rest
  | cs => parseUnsigned cs

/-- Model of `pd.to_datetime(_, errors="coerce").dt.year` on one cell:
a timestamp string beginning with an ISO `YYYY-` prefix yields its year,
anything else is unparseable and yields `none`. -/
def parseYear (s : String) : Option Int :=
  match s.toList with
  | y1 :: y2 :: y3 :: y4 :: '-' :: _ =>
      if allDigits [y1, y2, y3, y4] then some (digitsVal [y1, y2, y3, y4]) else none
  | _ => none

/-! ### Raw and cleaned event tables -/

/-- One row of the raw CSV as read by `pd.read_csv`; each cell is `none`
when the cell is missing (NaN) and `some s` when the cell holds a value. -/
structure RawRow where
  event_type : Option String
  begin_lat : Option String
  begin_lon : Option String
  begin_date_time : Option String
  tor_f_scale : Option String
deriving DecidableEq

/-- The raw CSV table: its rows, plus whether the `TOR_F_SCALE` column is
present in the file at all (pandas column membership, line 59 of `app.py`).
When `hasTorFScale = false` the per-row `tor_f_scale` field is ignored. -/
structure RawTable where
  rows : List RawRow
  hasTorFScale : Bool
deriving DecidableEq

/-- One row of the cleaned `df_tornado` table after the processing block:
coordinates coerced to numeric, `YEAR` derived, `TOR_F_SCALE` defaulted
when the column was absent. -/
structure CleanRow where
  event_type : Option String
  begin_lat : Option Rat
  begin_lon : Option Rat
  begin_date_time : Option String
  year : Option Int
  tor_f_scale : Option String
deriving DecidableEq

/-- The per-row effect of the column-wise operations of lines 52-60 of
`app.py`: coordinate coercion, year extraction, severity default. -/
def cleanRow (hasTorFScale : Bool) (r : RawRow) : CleanRow :=
  { event_type := r.event_type
    begin_lat := r.begin_lat.bind parseNumeric
    begin_lon := r.begin_lon.bind parseNumeric
    begin_date_time := r.begin_date_time
    year := r.begin_date_time.bind parseYear
    tor_f_scale := if hasTorFScale then r.tor_f_scale else some "F0" }

/-- The `df_tornado` processing block of `app.py` (lines 48-60): filter to
`EVENT_TYPE == "Tornado"` (NaN compares unequal, as in pandas), drop rows
with a missing coordinate, then apply the column-wise coercions. -/
def loadAndClean (t : RawTable) : List CleanRow :=
  (((t.rows.filter (fun r => decide (r.event_type = some "Tornado"))).filter
      (fun r => r.begin_lat.isSome && r.begin_lon.isSome)).map
    (cleanRow t.hasTorFScale))

/-! ### Fujita scale mapping -/

/-- Marker style of one Fujita class (`f_scale_mapping` values). -/
structure MarkerStyle where
  size : Nat
  color : String
deriving DecidableEq

/-- The `f_scale_mapping` dict of `app.py`; a Python dict iterates in
insertion order, so it is modelled as an association list. -/
def f_scale_mapping : List (String × MarkerStyle) :=
  [("F0", { size := 6,  color := "lightgreen" }),
   ("F1", { size := 8,  color := "green" }),
   ("F2", { size := 10, color := "yellowgreen" }),
   ("F3", { size := 12, color := "orange" }),
   ("F4", { size := 14, color := "red" }),
   ("F5", { size := 16, color := "red" })]

/-! ### Boundary geometry flattening -/

/-- A 2-D coordinate as shapely stores it: `x` is longitude, `y` is latitude
(so `pt[0]` is `x` and `pt[1]` is `y` in the Python code). -/
structure Point where
  x : Rat
  y : Rat
deriving DecidableEq

/-- A shapely LineString, as its coordinate list. -/
abbrev LineString := List Point

/-- The shape of `unary_union(df_counties.geometry.boundary)` as the
flattening block of `app.py` (lines 85-93) discriminates it:
a multi-part geometry (`hasattr(all_boundaries, "geoms")`), a single
`LineString`, or anything else (in which case both lists stay empty). -/
inductive Boundary where
  | multi (lines : List LineString)
  | single (line : LineString)
  | other
deriving DecidableEq

/-- The union-and-flatten block of `app.py` (lines 84-93) producing the
pair `(combined_lats, combined_lons)`; `none` is the Python `None`
sentinel appended after each piece of a multi-part geometry. -/
def flattenBoundaries : Boundary → List (Option Rat) × List (Option Rat)
  | .multi lines =>
      (lines.foldl (fun acc line => acc ++ ((line.map fun p => some p.y) ++ [none])) [],
       lines.foldl (fun acc line => acc ++ ((line.map fun p => some p.x) ++ [none])) [])
  | .single line =>
      (line.map fun p => some p.y, line.map fun p => some p.x)
  | .other => ([], [])

/-- Number of distinct line pieces of the merged boundary network. -/
def numPieces : Boundary → Nat
  | .multi lines => lines.length
  | .single _ => 1
  | .other => 0

/-- Number of sentinel breaks (`None` markers) in a flattened coordinate
sequence. -/
def countBreaks (l : List (Option Rat)) : Nat :=
  l.countP (fun o => o.isNone)

/-! ### Helper lemmas on the flattening loop -/

/-- A fold that appends a block per element equals the prepended
accumulator followed by the flattened blocks. -/
theorem foldl_append_eq_flatten {α β : Type} (f : α → List β) :
    ∀ (l : List α) (a : List β),
      l.foldl (fun acc x => acc ++ f x) a = a ++ (l.map f).flatten := by
  intro l
  induction l with
  | nil => intro a; simp
  | cons x xs ih => intro a; simp [List.foldl_cons, ih, List.append_assoc]

/-- Each piece of the multi-part branch contributes exactly one sentinel
to the latitude sequence: a piece's own points are all `some`. -/
theorem countBreaks_piece (line : LineString) (f : Point → Rat) :
    List.countP (fun o => Option.isNone o) ((line.map fun p => some (f p)) ++ [none]) = 1 := by
  simp [List.countP_append, List.countP_map, Function.comp_def, List.countP_eq_zero.2]

/-- Break count of the flattened multi-part latitude/longitude list. -/
theorem countBreaks_multi (lines : List LineString) (f : Point → Rat) :
    countBreaks ((lines.map fun line => (line.map fun p => some (f p)) ++ [none]).flatten)
      = lines.length := by
  induction lines with
  | nil => simp [countBreaks]
  | cons l ls ih =>
      have h := countBreaks_piece l f
      simp only [countBreaks, List.map_cons, List.flatten_cons, List.countP_append,
        List.length_cons] at h ih ⊢
      omega

/-! ### Figure builder (`create_figure`, lines 107-144) -/

/-- A plotly `Scattergeo` trace as `create_figure` builds it: either the
county-boundary line trace or one Fujita-class marker trace. -/
inductive Trace where
  | boundary (lats lons : List (Option Rat)) (lineWidth : Nat) (lineColor : String)
      (name : String)
  | markers (lats lons : List (Option Rat)) (size : Nat) (color : String)
      (opacity : Rat) (name : String) (text : List (Option String)) (hoverinfo : String)
deriving DecidableEq

/-- The fixed `geo_layout` dict of `app.py` (lines 96-104). -/
structure GeoLayout where
  scope : String
  projectionType : String
  showland : Bool
  landcolor : String
  subunitcolor : String
  countrycolor : String
  lakecolor : String
deriving DecidableEq

/-- Value of the `geo_layout` constant. -/
def geo_layout : GeoLayout :=
  { scope := "usa", projectionType := "albers usa", showland := true,
    landcolor := "rgb(217, 217, 217)", subunitcolor := "rgb(255, 255, 255)",
    countrycolor := "rgb(255, 255, 255)", lakecolor := "rgb(255, 255, 255)" }

/-- A plotly figure: its trace list in insertion order plus the layout
metadata set by `fig.update_layout`. -/
structure Figure where
  traces : List Trace
  title : String
  geo : GeoLayout
  marginR : Nat
  marginT : Nat
  marginL : Nat
  marginB : Nat
deriving DecidableEq

/-- The year filter of `create_figure` (line 108):
`df_tornado[df_tornado["YEAR"] == selected_year]`; a missing year (NaN)
compares unequal, as in pandas. -/
def year_subset (df : List CleanRow) (selected_year : Int) : List CleanRow :=
  df.filter (fun r => decide (r.year = some selected_year))

/-- The severity filter inside the marker loop (line 123):
`df_year[df_year["TOR_F_SCALE"] == f_scale]`. -/
def severity_subset (df : List CleanRow) (f_scale : String) : List CleanRow :=
  df.filter (fun r => decide (r.tor_f_scale = some f_scale))

/-- The marker trace added for one Fujita class (lines 125-137). -/
def marker_trace (f_scale : String) (props : MarkerStyle) (subset : List CleanRow) : Trace :=
  .markers (subset.map fun r => r.begin_lat) (subset.map fun r => r.begin_lon)
    props.size props.color ((8 : Rat) / 10) ("Tornado " ++ f_scale)
    (subset.map fun r => r.begin_date_time) "text+name"

/-- The boundary trace added first (lines 113-119). -/
def boundary_trace (combined_lats combined_lons : List (Option Rat)) : Trace :=
  .boundary combined_lats combined_lons 2 "black" "County Boundaries"

/-- The `create_figure` function of `app.py` (lines 107-144), with the
module-level globals it reads (`df_tornado`, `combined_lats`,
`combined_lons`) made explicit parameters; `f_scale_mapping` and
`geo_layout` stay the module constants defined above. -/
def create_figure (df_tornado : List CleanRow)
    (combined_lats combined_lons : List (Option Rat)) (selected_year : Int) : Figure :=
  let df_year := year_subset df_tornado selected_year
  { traces :=
      boundary_trace combined_lats combined_lons ::
        f_scale_mapping.filterMap (fun p =>
          let subset := severity_subset df_year p.1
          if subset.isEmpty then none else some (marker_trace p.1 p.2 subset)),
    title := "Tornado Events - " ++ toString selected_year,
    geo := geo_layout,
    marginR := 0, marginT := 40, marginL := 0, marginB := 0 }

/-! ### Dataset fetcher (`download_large_file_from_gdrive` and its guard) -/

/-- The observable state the fetcher touches: the local files (an
association list from path to byte content) and how many network requests
have been issued. -/
structure World where
  files : List (String × List Nat)
  networkCalls : Nat
deriving DecidableEq

/-- Model of `os.path.exists`. -/
def pathExists (w : World) (path : String) : Bool :=
  (w.files.lookup path).isSome

/-- Writing a file replaces any previous content at that path. -/
def writeFile (w : World) (path : String) (content : List Nat) : World :=
  { w with files := (path, content) :: w.files.filter (fun q => !(q.1 == path)) }

/-- An HTTP response as `session.get(gdrive_url, stream=True)` yields it:
a status code and the streamed body chunks. -/
structure HttpResponse where
  status_code : Nat
  chunks : List (List Nat)
deriving DecidableEq

/-- Outcome of running a piece of the startup script: either it falls
through normally or it terminated the process via `exit(code)`; both carry
the world state reached. -/
inductive ProcResult where
  | ok (w : World)
  | exited (code : Nat) (w : World)
deriving DecidableEq

/-- World state reached by a `ProcResult`. -/
def ProcResult.world : ProcResult → World
  | .ok w => w
  | .exited _ w => w

/-- Exit code of a `ProcResult`, when it terminated the process. -/
def ProcResult.exitCode : ProcResult → Option Nat
  | .ok _ => none
  | .exited c _ => some c

/-- Model of `download_large_file_from_gdrive` (lines 19-33): one GET
request; on status 200 the non-empty chunks are written to `destination`
(the `if chunk:` guard skips empty chunks); otherwise `exit(1)`. -/
def download_large_file_from_gdrive (resp : HttpResponse) (destination : String)
    (w : World) : ProcResult :=
  let w1 : World := { w with networkCalls := w.networkCalls + 1 }
  if resp.status_code = 200 then
    .ok (writeFile w1 destination ((resp.chunks.filter (fun c => !c.isEmpty)).flatten))
  else
    .exited 1 w1

/-- The existence-guarded download at startup (lines 36-37 of `app.py`):
download only if the file does not exist. -/
def ensureLocalCopy (resp : HttpResponse) (path : String) (w : World) : ProcResult :=
  if pathExists w path then .ok w else download_large_file_from_gdrive resp path w

/-! ### Helper lemmas on the figure builder -/

/-- A `filterMap` that drops elements failing a test and maps the rest is a
filter followed by a map. -/
theorem filterMap_skip_empty {α β : Type} (l : List α) (c : α → Bool) (g : α → β) :
    l.filterMap (fun x => if c x then none else some (g x)) =
      (l.filter (fun x => !c x)).map g := by
  induction l with
  | nil => rfl
  | cons x xs ih =>
      by_cases h : c x = true <;>
        simp [List.filterMap_cons, List.filter_cons, h, ih]

/-- Structure of the trace list built by `create_figure`: the boundary
trace first, then one marker trace per Fujita class with a non-empty
year-and-severity subset, in mapping order. -/
theorem create_figure_traces_eq (df : List CleanRow)
    (lats lons : List (Option Rat)) (y : Int) :
    (create_figure df lats lons y).traces =
      boundary_trace lats lons ::
        (f_scale_mapping.filter
            (fun p => !(severity_subset (year_subset df y) p.1).isEmpty)).map
          (fun p => marker_trace p.1 p.2 (severity_subset (year_subset df y) p.1)) := by
  simp only [create_figure, List.cons.injEq, true_and]
  exact filterMap_skip_empty f_scale_mapping
    (fun p => (severity_subset (year_subset df y) p.1).isEmpty)
    (fun p => marker_trace p.1 p.2 (severity_subset (year_subset df y) p.1))

/-! ### Claim theorems -/

/-- Claim C1, counterexample: for a merged boundary network of two distinct
line pieces, the flattening block emits two `None` sentinels in each output
sequence (one after every piece, the last included), not pieces − 1 = 1 as
the claim states. -/
theorem claim_C1_counterexample :
    numPieces (Boundary.multi
        [[{ x := 0, y := 0 }, { x := 1, y := 1 }],
         [{ x := 2, y := 2 }, { x := 3, y := 3 }]]) = 2 ∧
    countBreaks (flattenBoundaries (Boundary.multi
        [[{ x := 0, y := 0 }, { x := 1, y := 1 }],
         [{ x := 2, y := 2 }, { x := 3, y := 3 }]])).1 = 2 ∧
    countBreaks (flattenBoundaries (Boundary.multi
        [[{ x := 0, y := 0 }, { x := 1, y := 1 }],
         [{ x := 2, y := 2 }, { x := 3, y := 3 }]])).2 = 2 ∧
    ¬ countBreaks (flattenBoundaries (Boundary.multi
        [[{ x := 0, y := 0 }, { x := 1, y := 1 }],
         [{ x := 2, y := 2 }, { x := 3, y := 3 }]])).1
      = numPieces (Boundary.multi
        [[{ x := 0, y := 0 }, { x := 1, y := 1 }],
         [{ x := 2, y := 2 }, { x := 3, y := 3 }]]) - 1 := by
  decide

/-- Claim C1, amended: in the multi-part branch the number of sentinel
breaks in each output sequence equals the number of distinct line pieces
(one sentinel after every piece, the last included); in the single
`LineString` branch the output contains zero sentinel breaks. -/
theorem claim_C1 :
    (∀ lines : List LineString,
        countBreaks (flattenBoundaries (Boundary.multi lines)).1
            = numPieces (Boundary.multi lines) ∧
        countBreaks (flattenBoundaries (Boundary.multi lines)).2
            = numPieces (Boundary.multi lines)) ∧
    (∀ line : LineString,
        countBreaks (flattenBoundaries (Boundary.single line)).1 = 0 ∧
        countBreaks (flattenBoundaries (Boundary.single line)).2 = 0) := by
  constructor
  · intro lines
    constructor
    · show countBreaks (lines.foldl
          (fun acc line => acc ++ ((line.map fun p => some p.y) ++ [none])) []) = lines.length
      rw [foldl_append_eq_flatten (fun line => (line.map fun p => some p.y) ++ [none])
            lines [], List.nil_append]
      exact countBreaks_multi lines (fun p => p.y)
    · show countBreaks (lines.foldl
          (fun acc line => acc ++ ((line.map fun p => some p.x) ++ [none])) []) = lines.length
      rw [foldl_append_eq_flatten (fun line => (line.map fun p => some p.x) ++ [none])
            lines [], List.nil_append]
      exact countBreaks_multi lines (fun p => p.x)
  · intro line
    constructor <;>
      simp [flattenBoundaries, countBreaks, List.countP_map, Function.comp_def,
        List.countP_eq_zero]

/-- Claim C9: in every branch of the flattening block the two output
sequences `combined_lats` and `combined_lons` have equal length. -/
theorem claim_C9 (b : Boundary) :
    (flattenBoundaries b).1.length = (flattenBoundaries b).2.length := by
  cases b with
  | multi lines =>
      show (lines.foldl
            (fun acc line => acc ++ ((line.map fun p => some p.y) ++ [none])) []).length
          = (lines.foldl
            (fun acc line => acc ++ ((line.map fun p => some p.x) ++ [none])) []).length
      rw [foldl_append_eq_flatten (fun line => (line.map fun p => some p.y) ++ [none])
            lines [],
          foldl_append_eq_flatten (fun line => (line.map fun p => some p.x) ++ [none])
            lines []]
      simp [List.length_flatten, Function.comp_def]
  | single line => simp [flattenBoundaries]
  | other => rfl

/-- Claim C5: the year filter of `create_figure` selects exactly the rows
whose year field equals the requested year — membership in the subset is
equivalent to membership in the table with a matching year (rows kept
unchanged, so coordinates are unchanged), the subset is a sublist of the
table (order preserved, duplicates kept when matching), and a year with no
matching rows yields the empty subset rather than an error. -/
theorem claim_C5 (df : List CleanRow) (y : Int) (r : CleanRow) :
    (r ∈ year_subset df y ↔ r ∈ df ∧ r.year = some y) ∧
    (year_subset df y).Sublist df ∧
    List.count r (year_subset df y)
        = (if r.year = some y then List.count r df else 0) := by
  refine ⟨?_, List.filter_sublist _, ?_⟩
  · simp [year_subset, List.mem_filter]
  · by_cases h : r.year = some y
    · rw [if_pos h]
      exact List.count_filter (by simp [h])
    · rw [if_neg h, List.count_eq_zero]
      simp [year_subset, List.mem_filter, h]

/-- Claim C6: when a file already exists at the destination path the
guarded download is a no-op — the world (files and network-call count) is
returned unchanged, so no network call happens and the file stays
byte-identical; since the world is unchanged, repeated calls remain
no-ops. -/
theorem claim_C6 (resp : HttpResponse) (path : String) (w : World)
    (h : pathExists w path = true) :
    ensureLocalCopy resp path w = ProcResult.ok w := by
  simp [ensureLocalCopy, h]

/-- Witness for claim C6 at a concrete world already holding the CSV. -/
theorem claim_C6_witness :
    ensureLocalCopy { status_code := 404, chunks := [] }
        "us-weather-events-1980-2024.csv"
        { files := [("us-weather-events-1980-2024.csv", [1, 2, 3])], networkCalls := 0 }
      = ProcResult.ok
        { files := [("us-weather-events-1980-2024.csv", [1, 2, 3])], networkCalls := 0 } :=
  claim_C6 { status_code := 404, chunks := [] } "us-weather-events-1980-2024.csv"
    { files := [("us-weather-events-1980-2024.csv", [1, 2, 3])], networkCalls := 0 }
    (by decide)

/-- Claim C7: the downloader terminates the process with exit code 1
exactly when the HTTP status is not 200 (and exit code 1 is non-zero), it
does not terminate on status 200, and in either case it issues exactly one
network request — no retry. -/
theorem claim_C7 (resp : HttpResponse) (destination : String) (w : World) :
    (download_large_file_from_gdrive resp destination w).exitCode
        = (if resp.status_code = 200 then none else some 1) ∧
    (download_large_file_from_gdrive resp destination w).world.networkCalls
        = w.networkCalls + 1 := by
  by_cases h : resp.status_code = 200 <;>
    simp [download_large_file_from_gdrive, h, ProcResult.exitCode, ProcResult.world,
      writeFile]

/-- Claim C8: `create_figure` is a pure function of the cleaned table, the
boundary coordinate sequences and the selected year (the severity style
table and geo layout being fixed module constants): identical inputs give
identical figures. -/
theorem claim_C8 (df₁ df₂ : List CleanRow) (lats₁ lats₂ lons₁ lons₂ : List (Option Rat))
    (y₁ y₂ : Int) (hdf : df₁ = df₂) (hlat : lats₁ = lats₂) (hlon : lons₁ = lons₂)
    (hy : y₁ = y₂) :
    create_figure df₁ lats₁ lons₁ y₁ = create_figure df₂ lats₂ lons₂ y₂ := by
  rw [hdf, hlat, hlon, hy]

/-- Witness for claim C8 at a concrete input. -/
theorem claim_C8_witness :
    create_figure [] [] [] 1980 = create_figure [] [] [] 1980 :=
  claim_C8 [] [] [] [] [] [] 1980 1980 rfl rfl rfl rfl

/-- Raw table with a Tornado row whose latitude cell is present but
non-numeric and whose severity code is the EF-scale value "EFU". -/
def rawTableC2 : RawTable :=
  { rows := [{ event_type := some "Tornado", begin_lat := some "abc",
               begin_lon := some "1", begin_date_time := some "1999-04-01 00:00:00",
               tor_f_scale := some "EFU" }],
    hasTorFScale := true }

/-- Claim C2, counterexample: the cleaning keeps a row whose latitude
becomes missing (the `dropna` runs before the numeric coercion, so a
present-but-non-numeric cell survives and then coerces to NaN) and whose
severity code "EFU" is none of the 6 codes F0-F5. -/
theorem claim_C2_counterexample :
    (loadAndClean rawTableC2).map (fun r => (r.begin_lat, r.tor_f_scale))
        = [(none, some "EFU")] ∧
    (f_scale_mapping.map Prod.fst).contains "EFU" = false := by
  decide

/-- Claim C2, amended: every row of the cleaned table has category
"Tornado", and comes from a source row whose raw latitude and longitude
cells were both present; when the severity column is absent from the
source its severity code is the default "F0". (After coercion a
coordinate may still be missing if the raw cell was non-numeric, and a
present severity column passes through codes outside F0-F5 unchanged.) -/
theorem claim_C2 (t : RawTable) (r : CleanRow) (hr : r ∈ loadAndClean t) :
    r.event_type = some "Tornado" ∧
    (t.hasTorFScale = false → r.tor_f_scale = some "F0") ∧
    ∃ raw, raw ∈ t.rows ∧ raw.begin_lat.isSome = true ∧ raw.begin_lon.isSome = true ∧
      r = cleanRow t.hasTorFScale raw := by
  simp only [loadAndClean, List.mem_map, List.mem_filter, Bool.and_eq_true,
    decide_eq_true_eq] at hr
  obtain ⟨raw, ⟨⟨hmem, hcat⟩, hlat, hlon⟩, hclean⟩ := hr
  refine ⟨?_, ?_, raw, hmem, hlat, hlon, hclean.symm⟩
  · rw [← hclean]; exact hcat
  · intro hcol
    rw [← hclean]
    simp [cleanRow, hcol]

/-- Raw row with valid coordinates and timestamp, severity "F5". -/
def rawRowF5 : RawRow :=
  { event_type := some "Tornado", begin_lat := some "35", begin_lon := some "-97",
    begin_date_time := some "1999-05-03 16:00:00", tor_f_scale := some "F5" }

/-- Raw table holding just `rawRowF5`, severity column present. -/
def rawTableF5 : RawTable := { rows := [rawRowF5], hasTorFScale := true }

/-- Witness for the amended claim C2 at a concrete one-row table. -/
theorem claim_C2_witness :
    (cleanRow true rawRowF5).event_type = some "Tornado" :=
  (claim_C2 rawTableF5 (cleanRow true rawRowF5) (by decide)).1

/-- Raw row like `rawRowF5` but with a blank (missing) severity cell. -/
def rawRowBlankSeverity : RawRow :=
  { event_type := some "Tornado", begin_lat := some "35", begin_lon := some "-97",
    begin_date_time := some "1999-05-03 16:00:00", tor_f_scale := none }

/-- Raw table whose severity column is present but blank on its one row. -/
def rawTableBlankSeverity : RawTable :=
  { rows := [rawRowBlankSeverity], hasTorFScale := true }

/-- Raw table with no severity column at all. -/
def rawTableNoSeverityCol : RawTable :=
  { rows := [rawRowBlankSeverity], hasTorFScale := false }

/-- Claim C3, counterexample: when the severity column is present but
blank on a row, the cleaning leaves that row's severity blank — it does
not receive the default "F0" as the claim states. -/
theorem claim_C3_counterexample :
    (loadAndClean rawTableBlankSeverity).map (fun r => r.tor_f_scale) = [none] ∧
    (none : Option String) ≠ some "F0" := by
  decide

/-- Claim C3, amended: if the severity column is entirely absent from the
source table, every cleaned row's severity code equals the default "F0";
if the column is present, each row's severity is passed through unchanged
from its source row — in particular blank cells stay blank (no per-row
backfill). -/
theorem claim_C3 (t : RawTable) (r : CleanRow) (hr : r ∈ loadAndClean t) :
    (t.hasTorFScale = false → r.tor_f_scale = some "F0") ∧
    (t.hasTorFScale = true →
      ∃ raw, raw ∈ t.rows ∧ r = cleanRow true raw ∧
        r.tor_f_scale = raw.tor_f_scale) := by
  simp only [loadAndClean, List.mem_map, List.mem_filter, Bool.and_eq_true,
    decide_eq_true_eq] at hr
  obtain ⟨raw, ⟨⟨hmem, _⟩, _, _⟩, hclean⟩ := hr
  constructor
  · intro hcol
    rw [← hclean]
    simp [cleanRow, hcol]
  · intro hcol
    rw [hcol] at hclean
    refine ⟨raw, hmem, hclean.symm, ?_⟩
    rw [← hclean]
    simp [cleanRow]

/-- Witness for the amended claim C3: with the severity column absent the
cleaned row's severity is the default "F0". -/
theorem claim_C3_witness :
    (cleanRow false rawRowBlankSeverity).tor_f_scale = some "F0" :=
  (claim_C3 rawTableNoSeverityCol (cleanRow false rawRowBlankSeverity) (by decide)).1 rfl

/-- Claim C4: `create_figure` emits the boundary trace first and then, for
the 6 severity codes in mapping order F0..F5, one marker trace exactly for
the codes whose year-subset is non-empty; a year with zero matching events
yields only the boundary trace, and a year with events in exactly the
codes F0 and F2 yields the three traces boundary, F0-markers, F2-markers
in that order. -/
theorem claim_C4 (df : List CleanRow) (lats lons : List (Option Rat)) (y : Int) :
    ((create_figure df lats lons y).traces =
      boundary_trace lats lons ::
        (f_scale_mapping.filter
            (fun p => !(severity_subset (year_subset df y) p.1).isEmpty)).map
          (fun p => marker_trace p.1 p.2 (severity_subset (year_subset df y) p.1))) ∧
    (year_subset df y = [] →
      (create_figure df lats lons y).traces = [boundary_trace lats lons]) ∧
    ((severity_subset (year_subset df y) "F0" ≠ [] ∧
      severity_subset (year_subset df y) "F2" ≠ [] ∧
      severity_subset (year_subset df y) "F1" = [] ∧
      severity_subset (year_subset df y) "F3" = [] ∧
      severity_subset (year_subset df y) "F4" = [] ∧
      severity_subset (year_subset df y) "F5" = []) →
      (create_figure df lats lons y).traces =
        [boundary_trace lats lons,
         marker_trace "F0" { size := 6, color := "lightgreen" }
           (severity_subset (year_subset df y) "F0"),
         marker_trace "F2" { size := 10, color := "yellowgreen" }
           (severity_subset (year_subset df y) "F2")]) := by
  refine ⟨create_figure_traces_eq df lats lons y, ?_, ?_⟩
  · intro hempty
    rw [create_figure_traces_eq, hempty]
    simp [severity_subset]
  · rintro ⟨h0, h2, h1, h3, h4, h5⟩
    rw [create_figure_traces_eq]
    have e0 : (severity_subset (year_subset df y) "F0").isEmpty = false :=
      List.isEmpty_eq_false.2 h0
    have e2 : (severity_subset (year_subset df y) "F2").isEmpty = false :=
      List.isEmpty_eq_false.2 h2
    have e1 : (severity_subset (year_subset df y) "F1").isEmpty = true :=
      List.isEmpty_iff.2 h1
    have e3 : (severity_subset (year_subset df y) "F3").isEmpty = true :=
      List.isEmpty_iff.2 h3
    have e4 : (severity_subset (year_subset df y) "F4").isEmpty = true :=
      List.isEmpty_iff.2 h4
    have e5 : (severity_subset (year_subset df y) "F5").isEmpty = true :=
      List.isEmpty_iff.2 h5
    simp [f_scale_mapping, List.filter_cons, e0, e1, e2, e3, e4, e5]

/-- Cleaned row of year 1999 with severity F0. -/
def rowF0W : CleanRow :=
  { event_type := some "Tornado", begin_lat := some 35, begin_lon := some (-97),
    begin_date_time := some "1999-05-03 16:00:00", year := some 1999,
    tor_f_scale := some "F0" }

/-- Cleaned row of year 1999 with severity F2. -/
def rowF2W : CleanRow :=
  { event_type := some "Tornado", begin_lat := some 36, begin_lon := some (-98),
    begin_date_time := some "1999-05-04 10:00:00", year := some 1999,
    tor_f_scale := some "F2" }

/-- Witness for claim C4: a concrete table with events in exactly the
codes F0 and F2 yields the three traces in order. -/
theorem claim_C4_witness :
    (create_figure [rowF0W, rowF2W] [] [] 1999).traces =
      [boundary_trace [] [],
       marker_trace "F0" { size := 6, color := "lightgreen" }
         (severity_subset (year_subset [rowF0W, rowF2W] 1999) "F0"),
       marker_trace "F2" { size := 10, color := "yellowgreen" }
         (severity_subset (year_subset [rowF0W, rowF2W] 1999) "F2")] :=
  (claim_C4 [rowF0W, rowF2W] [] [] 1999).2.2 (by decide)

/-- Claim C10: a cleaned row whose severity code is none of the 6 mapping
keys F0-F5 appears in no marker trace of any figure: every marker trace is
built from a severity subset, and such a row belongs to no severity subset
of any year. -/
theorem claim_C10 (df : List CleanRow) (lats lons : List (Option Rat)) (r : CleanRow)
    (hr : ∀ p ∈ f_scale_mapping, ¬ r.tor_f_scale = some p.1) (y : Int) :
    ((create_figure df lats lons y).traces =
      boundary_trace lats lons ::
        (f_scale_mapping.filter
            (fun p => !(severity_subset (year_subset df y) p.1).isEmpty)).map
          (fun p => marker_trace p.1 p.2 (severity_subset (year_subset df y) p.1))) ∧
    ∀ p ∈ f_scale_mapping, r ∉ severity_subset (year_subset df y) p.1 := by
  refine ⟨create_figure_traces_eq df lats lons y, ?_⟩
  intro p hp hrS
  have h2 := (List.mem_filter.1 hrS).2
  simp only [decide_eq_true_eq] at h2
  exact hr p hp h2

/-- Cleaned row of year 1999 whose severity "EFU" is outside F0-F5. -/
def rowEFU : CleanRow :=
  { event_type := some "Tornado", begin_lat := some 35, begin_lon := some (-97),
    begin_date_time := some "1999-05-03 16:00:00", year := some 1999,
    tor_f_scale := some "EFU" }

/-- Witness for claim C10: the EFU row is not in the F0 severity subset of
its own year. -/
theorem claim_C10_witness :
    rowEFU ∉ severity_subset (year_subset [rowEFU] 1999) "F0" :=
  (claim_C10 [rowEFU] [] [] rowEFU (by decide) 1999).2
    ("F0", { size := 6, color := "lightgreen" }) (by decide)

end TornadoApp
